import Mathlib

/-!
# SatyaMatka game lifecycle and settlement engine: a shallow embedding

This file embeds the core of the SatyaMatka betting backend in Lean:

* the clock/window evaluator deriving a game's status from minutes since
  midnight (src/server/routes/games.ts, getAllGames and placeBet), and the
  string-comparison variant of getGameById;
* the wager evaluators deciding whether a bet wins against a declared
  result: the per-bet-type winner logic of the games-route declareResult,
  and checkBetWinning of the unified results route (src/server/routes/results.ts);
* the settlement loops (games-route declareResult, results-route
  processBetsForResult) with bet mutation, wallet credits and aggregate
  statistics;
* the bet placement guard placeBet with its validation chain and atomic
  wallet debit.

JavaScript strings are modelled as lists of characters, JavaScript numbers
as rationals, and Mongoose documents as Lean structures.  Database writes
inside a request handler are modelled by returning the updated records;
mongoose session transactions (placeBet) are modelled as all-or-nothing:
an error leaves the state untouched, exactly the rollback the source
requests via session.withTransaction.
-/

namespace SatyaMatka

/-- Characters of a JavaScript string. -/
abbrev Str := List Char

/-- JS String.prototype.charAt i (also string indexing s[i] for an
in-range index): the one-character string at i, empty when out of range. -/
def charAt (s : Str) (i : Nat) : Str := (s.drop i).take 1

/-- JS lexicographic string comparison s < t, by code unit. -/
def jsStrLt : Str → Str → Bool
  | _, [] => false
  | [], _ :: _ => true
  | a :: s, b :: t => if a < b then true else if b < a then false else jsStrLt s t

/-- JS String.prototype.includes: substring containment. -/
def jsIncludes (s sub : Str) : Bool :=
  (List.range (s.length + 1)).any fun i => decide ((s.drop i).take sub.length = sub)

/-- The four game statuses of the Game schema. -/
inductive GStatus where
  | waiting
  | openWindow
  | closed
  | resultDeclared
deriving DecidableEq, Repr

/-- The bet types of the Game and Bet schemas. -/
inductive BetType where
  | jodi
  | haruf
  | crossing
deriving DecidableEq, Repr

/-- The bet statuses of the Bet schema. -/
inductive BetStatus where
  | pending
  | won
  | lost
  | cancelled
  | refunded
deriving DecidableEq, Repr

/-- The time-window status cascade of getAllGames (games.ts lines 44-86),
repeated verbatim in placeBet (lines 240-276): same-day games
(endMinutes > startMinutes) and cross-midnight games, with the booleans
isGameOpen, isGameClosed, isResultTime checked in that order. -/
def statusFromMinutes (cur s e r : Nat) : GStatus :=
  if e > s then
    if s ≤ cur ∧ cur < e then .openWindow
    else if e ≤ cur ∧ cur < r then .closed
    else if r ≤ cur then .resultDeclared
    else .waiting
  else if cur ≥ s ∨ cur < e then .openWindow
  else if r > e then
    if e ≤ cur ∧ cur < r then .closed
    else if r ≤ cur ∧ cur < s then .resultDeclared
    else .waiting
  else
    if (e ≤ cur ∧ cur < 1440) ∨ (0 ≤ cur ∧ cur < r) then .closed
    else if r ≤ cur ∧ cur < s then .resultDeclared
    else .waiting

/-- A Game document, with HH:mm times already parsed to minutes since
midnight (timeToMinutes of games.ts). -/
structure GameDoc where
  gameType : BetType
  isActive : Bool
  startM : Nat
  endM : Nat
  resultM : Nat
  minBet : ℚ
  maxBet : ℚ
  commission : ℚ
  jodiPayout : ℚ
  harufPayout : ℚ
  crossingPayout : ℚ
  declaredResult : Option Str
  currentStatus : GStatus
  forcedStatus : Option GStatus
deriving DecidableEq, Repr

/-- Current status of a game as getAllGames and placeBet derive it: an
admin-forced status wins while the game is active; otherwise the time
cascade for an active game; inactive games are waiting. -/
def currentStatusOf (g : GameDoc) (cur : Nat) : GStatus :=
  match g.forcedStatus, g.isActive with
  | some f, true => f
  | _, _ =>
    if g.isActive then statusFromMinutes cur g.startM g.endM g.resultM
    else .waiting

/-- The status computation of getGameById (games.ts lines 131-150): the
same cascade but by direct lexicographic comparison of the HH:mm strings;
current time >= start is the negation of current < start. -/
def statusFromStrings (cur s e r : Str) : GStatus :=
  if !jsStrLt cur s && jsStrLt cur e then .openWindow
  else if !jsStrLt cur e && jsStrLt cur r then .closed
  else if !jsStrLt cur r then .resultDeclared
  else .waiting

/-- The decimal digit character of d. -/
def digitChar (d : Nat) : Char := Char.ofNat (48 + d)

/-- Two-digit zero-padded decimal rendering of n < 100. -/
def pad2 (n : Nat) : Str := [digitChar (n / 10), digitChar (n % 10)]

/-- A zero-padded HH:mm string, the shape produced by
new Date().toTimeString().slice(0, 5). -/
def renderHM (h m : Nat) : Str := pad2 h ++ ':' :: pad2 m

/-- Minutes since midnight of an HH:mm time, as timeToMinutes computes. -/
def toMinutes (h m : Nat) : Nat := h * 60 + m

/-- A Bet document as the games-route declareResult settlement reads and
mutates it (games.ts lines 840-963).  harufPosition is
bet.betData?.harufPosition, the empty string when absent. -/
structure GBet where
  userId : Nat
  betType : BetType
  betNumber : Str
  betAmount : ℚ := 0
  potentialWinning : ℚ := 0
  harufPosition : Str := []
  status : BetStatus := .pending
  isWinner : Bool := false
  winningAmount : ℚ := 0
  actualPayout : ℚ := 0
  hasWinningTxn : Bool := false
deriving DecidableEq, Repr

/-- The per-bet winner decision of the games-route declareResult
(games.ts lines 863-916), against the unified winning number uwn:
jodi is an exact match; haruf compares the bet digit with charAt 0 for
position first, with charAt 1 for position last, and falls back to
substring containment for any other position value; crossing is an exact
match, or, for a 2-digit bet number and a winning number of at least two
digits, a digit-subset check. -/
def gamesIsWinner (uwn : Str) (bet : GBet) : Bool :=
  match bet.betType with
  | .jodi => decide (bet.betNumber = uwn)
  | .haruf =>
    if bet.harufPosition = ("first".data) then decide (bet.betNumber = charAt uwn 0)
    else if bet.harufPosition = ("last".data) then decide (bet.betNumber = charAt uwn 1)
    else jsIncludes uwn bet.betNumber
  | .crossing =>
    if decide (bet.betNumber = uwn) = false ∧ uwn ≠ [] ∧ bet.betNumber ≠ [] ∧
        2 ≤ uwn.length ∧ bet.betNumber.length = 2
    then bet.betNumber.all fun d => uwn.contains d
    else decide (bet.betNumber = uwn)

/-- The declared-result object the unified results route hands to its
settlement: the per-type result fields of the request body and the
fallback value (results.ts second revision, lines 572-577). -/
structure DeclaredResults where
  jodi : Str
  haruf : Str
  crossing : Str
  fallback : Str
deriving DecidableEq, Repr

/-- A Bet document as the unified results route reads and mutates it
(results.ts second revision).  harufDigit and harufPosition are
bet.betData fields, the empty string when absent. -/
structure RBet where
  userId : Nat
  betType : BetType
  betNumber : Str
  betAmount : ℚ := 0
  potentialWinning : ℚ := 0
  harufDigit : Str := []
  harufPosition : Str := []
  status : BetStatus := .pending
  isWinning : Option Bool := none
  resultDeclared : Bool := false
  declaredResult : Option Str := none
deriving DecidableEq, Repr

/-- The legacy-data fallback of the haruf branch of checkBetWinning
(results.ts second revision, lines 1034-1040): a bet number matching
/^([AB])(\d)$/i yields position first for A and last for B, and the
digit; anything else yields nothing. -/
def harufFromBetNumber (bn : Str) : Option (Str × Str) :=
  match bn with
  | [a, d] =>
    if (a = 'A' ∨ a = 'a') ∧ d.isDigit then some (("first".data), [d])
    else if (a = 'B' ∨ a = 'b') ∧ d.isDigit then some (("last".data), [d])
    else none
  | _ => none

/-- The generated crossing outcomes of checkBetWinning (results.ts second
revision, lines 1057-1068): every concatenation digit[i] ++ digit[j] over
ordered pairs of distinct positions i, j of the declared crossing
result. -/
def crossingOutcomes (s : Str) : List Str :=
  (List.range s.length).flatMap fun i =>
    ((List.range s.length).filter fun j => decide (i ≠ j)).map fun j =>
      charAt s i ++ charAt s j

/-- The position/digit pair the haruf branch of checkBetWinning ends up
using: betData's harufPosition and harufDigit, both replaced from the
legacy A/B bet number when either is missing and the bet number parses. -/
def harufResolved (bet : RBet) : Str × Str :=
  if bet.harufDigit = [] ∨ bet.harufPosition = [] then
    match harufFromBetNumber bet.betNumber with
    | some pd => pd
    | none => (bet.harufPosition, bet.harufDigit)
  else (bet.harufPosition, bet.harufDigit)

/-- checkBetWinning of the unified results route (results.ts second
revision, lines 994-1076): jodi is an exact match against the jodi
result; haruf requires a haruf result, takes digit and position from
betData (with the A/B bet-number fallback when either is missing) and
compares against the first or last character of the haruf result,
returning false when no usable position remains; crossing is membership
of the generated ordered-pair outcomes. -/
def checkBetWinningV2 (bet : RBet) (res : DeclaredResults) : Bool :=
  match bet.betType with
  | .jodi => decide (bet.betNumber = res.jodi)
  | .haruf =>
    if res.haruf.length < 1 then false
    else
      if (harufResolved bet).1 ≠ [] ∧ (harufResolved bet).2 ≠ [] then
        if (harufResolved bet).1 = ("first".data) ∨ (harufResolved bet).1 = ("andhar".data) then
          decide ((harufResolved bet).2 = charAt res.haruf 0)
        else if (harufResolved bet).1 = ("last".data) ∨ (harufResolved bet).1 = ("bahar".data) then
          decide ((harufResolved bet).2 = charAt res.haruf (res.haruf.length - 1))
        else false
      else false
  | .crossing => decide (bet.betNumber ∈ crossingOutcomes res.crossing)

/-- A Wallet document as placeBet and the games-route settlement touch it.
Modelled from the spec: the Wallet schema file is not under src/ (spec
sections 3 and 6); a freshly created wallet starts with zero balances. -/
structure PWallet where
  depositBalance : ℚ := 0
  winningBalance : ℚ := 0
  totalBets : ℚ := 0
  totalWinnings : ℚ := 0
deriving DecidableEq, Repr

/-- The wallet store keyed by user id. -/
abbrev Wallets := List (Nat × PWallet)

/-- Wallet.findOne for a user id. -/
def walletFind (ws : Wallets) (u : Nat) : Option PWallet :=
  (ws.find? fun p => decide (p.1 = u)).map (·.2)

/-- The winning credit of the games-route settlement: winningBalance and
totalWinnings of the user's wallet both grow by the winning amount. -/
def walletCredit (ws : Wallets) (u : Nat) (amt : ℚ) : Wallets :=
  ws.map fun p =>
    if p.1 = u then
      (p.1, { p.2 with winningBalance := p.2.winningBalance + amt,
                       totalWinnings := p.2.totalWinnings + amt })
    else p

/-- A win ledger transaction (user id and amount). -/
structure WinTxn where
  userId : Nat
  amount : ℚ
deriving DecidableEq, Repr

/-- One iteration of the settlement loop of the games-route declareResult
(games.ts lines 840-963): the settled bet, its contribution to
totalWinningAmount, the wallets after the credit, and the win transactions
created.  A winner is marked won with winningAmount and actualPayout set
to the frozen potentialWinning; the wallet credit and the win transaction
happen only when the user has a wallet; a loser is marked lost. -/
def settleOneGames (uwn : Str) (ws : Wallets) (bet : GBet) :
    GBet × ℚ × Wallets × List WinTxn :=
  if gamesIsWinner uwn bet then
    let bet' := { bet with isWinner := true, winningAmount := bet.potentialWinning,
                           actualPayout := bet.potentialWinning, status := .won }
    match walletFind ws bet.userId with
    | some _ =>
      ({ bet' with hasWinningTxn := true }, bet.potentialWinning,
        walletCredit ws bet.userId bet.potentialWinning,
        [⟨bet.userId, bet.potentialWinning⟩])
    | none => (bet', bet.potentialWinning, ws, [])
  else ({ bet with isWinner := false, status := .lost }, 0, ws, [])

/-- The settlement loop of the games-route declareResult over the fetched
bets, threading the wallet store: the settled bets in order, the
accumulated totalWinningAmount, the final wallets and the created win
transactions. -/
def settleBetsGames (uwn : Str) (ws : Wallets) :
    List GBet → List GBet × ℚ × Wallets × List WinTxn
  | [] => ([], 0, ws, [])
  | b :: bs =>
    let one := settleOneGames uwn ws b
    let rest := settleBetsGames uwn one.2.2.1 bs
    (one.1 :: rest.1, one.2.1 + rest.2.1, rest.2.2.1, one.2.2.2 ++ rest.2.2.2)

/-- The aggregate fields of a GameResult document the games-route
declareResult persists (games.ts lines 965-999). -/
structure GameResultRec where
  totalBets : Nat
  totalBetAmount : ℚ
  totalWinningAmount : ℚ
  platformCommission : ℚ
  netProfit : ℚ
deriving DecidableEq, Repr

/-- Everything a games-route settlement run produces. -/
structure GamesSettleOut where
  bets : List GBet
  wallets : Wallets
  txns : List WinTxn
  result : GameResultRec
deriving DecidableEq, Repr

/-- The games-route settlement run over the fetched pending bets
(games.ts lines 840-999): settle every bet, then compute
totalBetAmount as the sum of the fetched bets' stakes,
platformCommission as totalBetAmount * (commission / 100) and
netProfit as totalBetAmount - totalWinningAmount - platformCommission. -/
def runGamesSettlement (commission : ℚ) (uwn : Str) (ws : Wallets)
    (bets : List GBet) : GamesSettleOut :=
  let settled := settleBetsGames uwn ws bets
  let totalBetAmount := (bets.map (·.betAmount)).sum
  let platformCommission := totalBetAmount * (commission / 100)
  let netProfit := totalBetAmount - settled.2.1 - platformCommission
  { bets := settled.1, wallets := settled.2.2.1, txns := settled.2.2.2,
    result := { totalBets := bets.length, totalBetAmount := totalBetAmount,
                totalWinningAmount := settled.2.1,
                platformCommission := platformCommission, netProfit := netProfit } }

/-- The status of an existing GameResult document for the day. -/
inductive GRStatus where
  | pendingR
  | declaredR
deriving DecidableEq, Repr

/-- The rejections of the games-route declareResult (games.ts lines
783-807). -/
inductive GDeclareErr where
  | gameNotFound
  | resultAlreadyDeclared
deriving DecidableEq, Repr

/-- The games-route declareResult handler (games.ts lines 773-1038):
reject a missing game; reject when a GameResult for today already has
status declared; otherwise pick the unified winning number by game type,
fetch the game's bets in status pending, and settle them.  The handler
reads neither the game's currentStatus nor its forcedStatus. -/
def declareResultGames (game : Option GameDoc) (existing : Option GRStatus)
    (jodiResult harufResult crossingResult : Str)
    (allBets : List GBet) (ws : Wallets) : Except GDeclareErr GamesSettleOut :=
  match game with
  | none => .error .gameNotFound
  | some g =>
    if existing = some .declaredR then .error .resultAlreadyDeclared
    else
      let pendingBets := allBets.filter fun b => decide (b.status = .pending)
      let uwn :=
        match g.gameType with
        | .jodi => jodiResult
        | .haruf => harufResult
        | .crossing => crossingResult
      .ok (runGamesSettlement g.commission uwn ws pendingBets)

/-- The games-route declareResult as a state transformer: a rejected
declaration leaves every bet, every wallet and the transaction ledger
untouched. -/
def runDeclareResultGames (game : Option GameDoc) (existing : Option GRStatus)
    (jodiResult harufResult crossingResult : Str)
    (allBets : List GBet) (ws : Wallets) :
    (List GBet × Wallets × List WinTxn) × Option GDeclareErr :=
  match declareResultGames game existing jodiResult harufResult crossingResult allBets ws with
  | .ok out => ((out.bets, out.wallets, out.txns), none)
  | .error e => ((allBets, ws, []), some e)

/-- What one run of processBetsForResult produces (results.ts second
revision, lines 928-988). -/
structure ProcessOut where
  bets : List RBet
  winningBets : Nat
  losingBets : Nat
  totalWinAmount : ℚ
  credits : List WinTxn
deriving DecidableEq, Repr

/-- processBetsForResult of the unified results route (results.ts second
revision, lines 928-988): it fetches every bet of the game — no status
filter — and for each one evaluates checkBetWinning, stores isWinning,
resultDeclared and the fallback declared result on the bet (the bet's
status field is never written), and increments the user's winningBalance
and totalWinnings by potentialWinning for each winner. -/
def processBetsForResultV2 : List RBet → DeclaredResults → ProcessOut
  | [], _ => ⟨[], 0, 0, 0, []⟩
  | b :: bs, res =>
    let isW := checkBetWinningV2 b res
    let b' := { b with isWinning := some isW, resultDeclared := true,
                       declaredResult := some res.fallback }
    let rest := processBetsForResultV2 bs res
    if isW then
      { bets := b' :: rest.bets, winningBets := rest.winningBets + 1,
        losingBets := rest.losingBets,
        totalWinAmount := b.potentialWinning + rest.totalWinAmount,
        credits := ⟨b.userId, b.potentialWinning⟩ :: rest.credits }
    else
      { bets := b' :: rest.bets, winningBets := rest.winningBets,
        losingBets := rest.losingBets + 1,
        totalWinAmount := rest.totalWinAmount, credits := rest.credits }

/-- The rejections of the results-route declare handler (results.ts lines
18-103 of the first revision, 478-617 of the second). -/
inductive RDeclareErr where
  | invalidInput
  | gameNotFound
  | resultAlreadyDeclared
  | notClosed
deriving DecidableEq, Repr

/-- The results-route POST /declare/:gameId handler (results.ts first
revision, lines 18-103): reject a missing or empty declared result,
a missing game, a game whose declaredResult is already set, and a game
whose stored currentStatus is not closed — all before any write; then
record the result on the game and process every bet of the game. -/
def declareResultRoute (declaredResult : Option Str) (game : Option GameDoc)
    (res : DeclaredResults) (allBets : List RBet) :
    Except RDeclareErr (GameDoc × ProcessOut) :=
  match declaredResult with
  | none => .error .invalidInput
  | some dr =>
    if dr = [] then .error .invalidInput
    else
      match game with
      | none => .error .gameNotFound
      | some g =>
        if g.declaredResult.isSome then .error .resultAlreadyDeclared
        else if g.currentStatus ≠ .closed then .error .notClosed
        else
          .ok ({ g with declaredResult := some dr,
                        currentStatus := .resultDeclared },
               processBetsForResultV2 allBets res)

/-- The results-route declare handler as a state transformer: a rejected
declaration leaves the game document and every bet untouched and credits
nothing. -/
def runDeclareResultRoute (declaredResult : Option Str) (game : Option GameDoc)
    (res : DeclaredResults) (allBets : List RBet) :
    (Option GameDoc × List RBet × List WinTxn) × Option RDeclareErr :=
  match declareResultRoute declaredResult game res allBets with
  | .ok (g, out) => ((some g, out.bets, out.credits), none)
  | .error e => ((game, allBets, []), some e)

/-- A bet placement request body, with the truthiness of gameId recorded
as a flag (placeBet checks !gameId and the other fields' falsiness
first). -/
structure PlaceReq where
  hasGameId : Bool
  betType : Str
  betNumber : Str
  betAmount : ℚ
deriving DecidableEq, Repr

/-- The rejections of placeBet (games.ts lines 166-477), in the order the
handler checks them. -/
inductive PlaceErr where
  | missingFields
  | amountNotPositive
  | gameNotFoundOrInactive
  | bettingNotOpen
  | amountOutOfRange
  | insufficientBalance
  | invalidBetType
deriving DecidableEq, Repr

/-- A Bet document as placeBet creates it: the submitted betType string,
the game's own type, and the frozen potentialWinning. -/
structure PlacedBet where
  betType : Str
  gameType : BetType
  betNumber : Str
  betAmount : ℚ
  potentialWinning : ℚ
  status : BetStatus
deriving DecidableEq, Repr

/-- A bet debit ledger transaction. -/
structure BetTxn where
  amount : ℚ
deriving DecidableEq, Repr

/-- The state placeBet touches: the requesting user's wallet, the bet
collection and the ledger. -/
structure PlaceState where
  wallet : Option PWallet
  bets : List PlacedBet
  txns : List BetTxn
deriving DecidableEq, Repr

/-- The multiplier dispatch of placeBet (games.ts lines 353-366): a
switch on the raw betType string, with no comparison against the game's
own type; an unknown string throws Invalid bet type. -/
def betTypeOfStr (s : Str) : Option BetType :=
  if s = ("jodi".data) then some .jodi
  else if s = ("haruf".data) then some .haruf
  else if s = ("crossing".data) then some .crossing
  else none

/-- placeBet (games.ts lines 166-477): field presence, positive amount,
game existence and activity, window status (forced status respected),
min/max range, then — inside the session transaction — wallet lookup
(created empty when missing), the balance check, the multiplier switch,
and finally the debit with the bet and ledger records.  Every rejection
happens before the state is built, mirroring the transaction rollback. -/
def placeBet (game : Option GameDoc) (req : PlaceReq) (st : PlaceState)
    (cur : Nat) : Except PlaceErr PlaceState :=
  if req.hasGameId = false ∨ req.betType = [] ∨ req.betNumber = [] ∨ req.betAmount = 0 then
    .error .missingFields
  else if req.betAmount ≤ 0 then .error .amountNotPositive
  else
    match game with
    | none => .error .gameNotFoundOrInactive
    | some g =>
      if g.isActive = false then .error .gameNotFoundOrInactive
      else if currentStatusOf g cur ≠ .openWindow then .error .bettingNotOpen
      else if req.betAmount < g.minBet ∨ g.maxBet < req.betAmount then .error .amountOutOfRange
      else
        let wallet := st.wallet.getD {}
        if wallet.depositBalance < req.betAmount then .error .insufficientBalance
        else
          match betTypeOfStr req.betType with
          | none => .error .invalidBetType
          | some bt =>
            let multiplier :=
              match bt with
              | .jodi => g.jodiPayout
              | .haruf => g.harufPayout
              | .crossing => g.crossingPayout
            let potentialWinning := req.betAmount * multiplier
            .ok { wallet := some { wallet with
                    depositBalance := wallet.depositBalance - req.betAmount,
                    totalBets := wallet.totalBets + req.betAmount },
                  bets := st.bets ++
                    [⟨req.betType, g.gameType, req.betNumber, req.betAmount,
                      potentialWinning, .pending⟩],
                  txns := st.txns ++ [⟨req.betAmount⟩] }

/-- placeBet as a state transformer: the session transaction makes the
operation all-or-nothing, so a rejected request leaves the state as it
was. -/
def runPlaceBet (game : Option GameDoc) (req : PlaceReq) (st : PlaceState)
    (cur : Nat) : PlaceState × Option PlaceErr :=
  match placeBet game req st cur with
  | .ok st' => (st', none)
  | .error e => (st, some e)

/-! ## Helper lemmas -/

lemma charAt_eq_get (s : Str) (i : Nat) (h : i < s.length) :
    charAt s i = [s.get ⟨i, h⟩] :=
  List.take_one_drop_eq_of_lt_length h

lemma mem_crossingOutcomes {bn s : Str} :
    bn ∈ crossingOutcomes s ↔
      ∃ i j : Fin s.length, (i : Nat) ≠ (j : Nat) ∧ bn = [s.get i, s.get j] := by
  unfold crossingOutcomes
  simp only [List.mem_flatMap, List.mem_map, List.mem_filter, List.mem_range,
    decide_eq_true_eq]
  constructor
  · rintro ⟨i, hi, j, ⟨hj, hij⟩, rfl⟩
    exact ⟨⟨i, hi⟩, ⟨j, hj⟩, hij,
      by rw [charAt_eq_get s i hi, charAt_eq_get s j hj]; rfl⟩
  · rintro ⟨i, j, hij, rfl⟩
    exact ⟨i, i.isLt, j, ⟨j.isLt, hij⟩,
      by rw [charAt_eq_get s i i.isLt, charAt_eq_get s j j.isLt]; rfl⟩

/-! ## The claims -/

/-- The declared results object for a crossing game whose declared result
is 123. -/
def res123 : DeclaredResults :=
  { jodi := [], haruf := [], crossing := ['1', '2', '3'], fallback := ['1', '2', '3'] }

/-- C1, counterexample.  The claim quantifies over settlement as a whole,
but the games-route declareResult settlement marks crossing bet 11 a
winner for declared result 123 through its digit-subset fallback, even
though no ordered pair of distinct positions of 123 concatenates to 11. -/
theorem C1_cex_games_subset_rule :
    gamesIsWinner ['1', '2', '3']
      { userId := 1, betType := .crossing, betNumber := ['1', '1'] } = true ∧
    ['1', '1'] ∉ crossingOutcomes ['1', '2', '3'] := by decide

/-- C1, amended.  In the unified results-route settlement, a crossing bet
wins iff its number equals digit i ++ digit j for some ordered pair of
distinct positions i, j of the declared crossing result; for result 123,
bet 12 wins, bet 21 wins and bet 11 loses.  The games-route declareResult
settlement instead uses exact match plus a digit-subset rule for 2-digit
bet numbers. -/
theorem C1_crossing_pairwise :
    (∀ (bet : RBet) (res : DeclaredResults), bet.betType = .crossing →
      (checkBetWinningV2 bet res = true ↔
        ∃ i j : Fin res.crossing.length, (i : Nat) ≠ (j : Nat) ∧
          bet.betNumber = [res.crossing.get i, res.crossing.get j])) ∧
    checkBetWinningV2 { userId := 1, betType := .crossing, betNumber := ['1', '2'] } res123 = true ∧
    checkBetWinningV2 { userId := 1, betType := .crossing, betNumber := ['2', '1'] } res123 = true ∧
    checkBetWinningV2 { userId := 1, betType := .crossing, betNumber := ['1', '1'] } res123 = false ∧
    (∀ (uwn : Str) (bet : GBet), bet.betType = .crossing →
      decide (bet.betNumber = uwn) = false → uwn ≠ [] → bet.betNumber ≠ [] →
      2 ≤ uwn.length → bet.betNumber.length = 2 →
      gamesIsWinner uwn bet = bet.betNumber.all fun d => uwn.contains d) := by
  refine ⟨?_, by decide, by decide, by decide, ?_⟩
  · intro bet res hty
    simp only [checkBetWinningV2, hty]
    rw [decide_eq_true_eq]
    exact mem_crossingOutcomes
  · intro uwn bet hty hne hu hb hul hbl
    simp only [gamesIsWinner, hty]
    rw [if_pos ⟨hne, hu, hb, hul, hbl⟩]

/-- C2, counterexample.  A haruf bet with no position tag (and a bet
number that is a bare digit, not the legacy A/B form) is marked lost by
the unified results-route settlement even when the declared result
contains the bet digit: the claimed containment fallback does not exist
there. -/
theorem C2_cex_no_containment_fallback :
    checkBetWinningV2 { userId := 1, betType := .haruf, betNumber := ['4'] }
      { jodi := [], haruf := ['1', '4'], crossing := [], fallback := ['1', '4'] } = false ∧
    jsIncludes ['1', '4'] ['4'] = true := by decide

/-- C2, amended.  In the unified results-route settlement, a haruf bet
with position first or andhar (and a betData digit) wins iff the digit
equals the first character of the declared haruf result, with position
last or bahar iff it equals the last character, and a bet with no
position tag whose bet number is not of the legacy A/B form always
loses — there is no containment fallback.  The containment fallback
exists only in the games-route declareResult settlement, which applies
it whenever the position tag is neither exactly first nor exactly last
(so also for andhar and bahar). -/
theorem C2_haruf_positional :
    (∀ (bet : RBet) (res : DeclaredResults), bet.betType = .haruf →
      res.haruf ≠ [] → bet.harufDigit ≠ [] →
      (bet.harufPosition = ("first".data) ∨ bet.harufPosition = ("andhar".data)) →
      (checkBetWinningV2 bet res = true ↔ bet.harufDigit = charAt res.haruf 0)) ∧
    (∀ (bet : RBet) (res : DeclaredResults), bet.betType = .haruf →
      res.haruf ≠ [] → bet.harufDigit ≠ [] →
      (bet.harufPosition = ("last".data) ∨ bet.harufPosition = ("bahar".data)) →
      (checkBetWinningV2 bet res = true ↔
        bet.harufDigit = charAt res.haruf (res.haruf.length - 1))) ∧
    (∀ (bet : RBet) (res : DeclaredResults), bet.betType = .haruf →
      bet.harufPosition = [] → harufFromBetNumber bet.betNumber = none →
      checkBetWinningV2 bet res = false) ∧
    (∀ (uwn : Str) (bet : GBet), bet.betType = .haruf →
      bet.harufPosition ≠ ("first".data) → bet.harufPosition ≠ ("last".data) →
      gamesIsWinner uwn bet = jsIncludes uwn bet.betNumber) := by
  refine ⟨?_, ?_, ?_, ?_⟩
  · intro bet res hty hres hdig hpos
    have hlen : ¬(res.haruf.length < 1) := by
      simp only [Nat.lt_one_iff, List.length_eq_zero]
      exact hres
    have hpne : bet.harufPosition ≠ [] := by
      rcases hpos with h | h <;> rw [h] <;> decide
    have hr : harufResolved bet = (bet.harufPosition, bet.harufDigit) := by
      unfold harufResolved
      rw [if_neg (not_or.mpr ⟨hdig, hpne⟩)]
    simp only [checkBetWinningV2, hty, hr]
    rw [if_neg hlen, if_pos ⟨hpne, hdig⟩, if_pos hpos, decide_eq_true_eq]
  · intro bet res hty hres hdig hpos
    have hlen : ¬(res.haruf.length < 1) := by
      simp only [Nat.lt_one_iff, List.length_eq_zero]
      exact hres
    have hpne : bet.harufPosition ≠ [] := by
      rcases hpos with h | h <;> rw [h] <;> decide
    have hnotfirst : ¬(bet.harufPosition = ("first".data) ∨
        bet.harufPosition = ("andhar".data)) := by
      rcases hpos with h | h <;> rw [h] <;> decide
    have hr : harufResolved bet = (bet.harufPosition, bet.harufDigit) := by
      unfold harufResolved
      rw [if_neg (not_or.mpr ⟨hdig, hpne⟩)]
    simp only [checkBetWinningV2, hty, hr]
    rw [if_neg hlen, if_pos ⟨hpne, hdig⟩, if_neg hnotfirst, if_pos hpos,
      decide_eq_true_eq]
  · intro bet res hty hpos hreg
    have hr : harufResolved bet = (bet.harufPosition, bet.harufDigit) := by
      unfold harufResolved
      rw [if_pos (Or.inr hpos), hreg]
    simp only [checkBetWinningV2, hty, hr]
    by_cases hlen : res.haruf.length < 1
    · rw [if_pos hlen]
    · rw [if_neg hlen, if_neg (by simp [hpos])]
  · intro uwn bet hty hfst hlst
    simp only [gamesIsWinner, hty]
    rw [if_neg hfst, if_neg hlst]

/-- The already-settled bet of the C4 failing input: a jodi bet on 12,
frozen potential winning 950, already in status won from an earlier
settlement run. -/
def c4WonBet : RBet :=
  { userId := 7, betType := .jodi, betNumber := ['1', '2'],
    potentialWinning := 950, status := .won }

/-- The pending bet of the C4 failing input. -/
def c4PendingBet : RBet :=
  { userId := 8, betType := .jodi, betNumber := ['3', '4'],
    potentialWinning := 950, status := .pending }

/-- The declared results of the C4 failing input: jodi result 12. -/
def c4Res : DeclaredResults :=
  { jodi := ['1', '2'], haruf := [], crossing := [], fallback := ['1', '2'] }

/-- C4: the results-route settlement evaluated at the failing input.
processBetsForResult fetches every bet of the game with no status filter:
the bet already settled as won is re-evaluated and its user is credited
its potentialWinning again, and no bet's status field is written — the
winning bet stays won and the pending bet stays pending instead of
transitioning to won or lost. -/
theorem C4_reprocesses_settled_bets :
    (processBetsForResultV2 [c4WonBet, c4PendingBet] c4Res).credits =
      [{ userId := 7, amount := 950 }] ∧
    (processBetsForResultV2 [c4WonBet, c4PendingBet] c4Res).bets.map (·.status) =
      [.won, .pending] ∧
    (processBetsForResultV2 [c4WonBet, c4PendingBet] c4Res).totalWinAmount = 950 := by
  have h1 : checkBetWinningV2 c4WonBet c4Res = true := by decide
  have h2 : checkBetWinningV2 c4PendingBet c4Res = false := by decide
  simp only [processBetsForResultV2, h1, h2, if_true, if_false]
  norm_num [c4WonBet, c4PendingBet]

/-- An active jodi game whose stored and computed status are both open:
window 10:00 to 12:00, result 12:30, no forced status, no declared
result. -/
def c3OpenGame : GameDoc :=
  { gameType := .jodi, isActive := true, startM := 600, endM := 720,
    resultM := 750, minBet := 10, maxBet := 5000, commission := 5,
    jodiPayout := 95, harufPayout := 9, crossingPayout := 95,
    declaredResult := none, currentStatus := .openWindow,
    forcedStatus := none }

/-- A pending jodi bet on the open game. -/
def c3Bet : GBet :=
  { userId := 3, betType := .jodi, betNumber := ['1', '2'],
    betAmount := 100, potentialWinning := 9500 }

/-- C3, counterexample.  The games-route declareResult checks no game
status at all: at 11:40 (700 minutes) the game is open by the window
evaluator and its stored currentStatus is open, there is no existing
GameResult, and the declaration still goes through (no error) and
settles the pending bet. -/
theorem C3_cex_games_declare_ignores_status :
    c3OpenGame.currentStatus = .openWindow ∧
    currentStatusOf c3OpenGame 700 = .openWindow ∧
    (runDeclareResultGames (some c3OpenGame) none ['1', '2'] [] [] [c3Bet] []).2 =
      none := by
  refine ⟨by decide, by decide, ?_⟩
  rfl

/-- C3, amended.  The results-route declare handler rejects with
Result already declared whenever the game's declaredResult is already
set, and with Can only declare result for closed games whenever the
game's stored currentStatus is not closed, both before any write: a
rejected declaration leaves the game, every bet and the credit ledger
untouched.  The games-route declareResult never checks the game status;
it rejects only when a GameResult with status declared already exists
for the day, and a rejected call likewise mutates no bet and credits no
wallet. -/
theorem C3_declare_guards :
    (∀ (dr : Str) (g : GameDoc) (res : DeclaredResults) (bets : List RBet),
      dr ≠ [] → g.declaredResult.isSome →
      runDeclareResultRoute (some dr) (some g) res bets =
        ((some g, bets, []), some .resultAlreadyDeclared)) ∧
    (∀ (dr : Str) (g : GameDoc) (res : DeclaredResults) (bets : List RBet),
      dr ≠ [] → g.declaredResult = none → g.currentStatus ≠ .closed →
      runDeclareResultRoute (some dr) (some g) res bets =
        ((some g, bets, []), some .notClosed)) ∧
    (∀ (g : GameDoc) (jr hr cr : Str) (bets : List GBet) (ws : Wallets),
      runDeclareResultGames (some g) (some .declaredR) jr hr cr bets ws =
        ((bets, ws, []), some .resultAlreadyDeclared)) := by
  refine ⟨?_, ?_, ?_⟩
  · intro dr g res bets hdr hdecl
    simp [runDeclareResultRoute, declareResultRoute, hdr, hdecl]
  · intro dr g res bets hdr hdecl hstat
    simp [runDeclareResultRoute, declareResultRoute, hdr, hdecl, hstat]
  · intro g jr hr cr bets ws
    simp [runDeclareResultGames, declareResultGames]

/-- An active, unforced same-day game whose result time 11:00 lies
before its end time 12:00: the configuration on which the claim's iff
reading breaks. -/
def c5Game : GameDoc :=
  { gameType := .jodi, isActive := true, startM := 600, endM := 720,
    resultM := 660, minBet := 10, maxBet := 5000, commission := 5,
    jodiPayout := 95, harufPayout := 9, crossingPayout := 95,
    declaredResult := none, currentStatus := .waiting,
    forcedStatus := none }

/-- C5, counterexample.  For an active unforced game with
endMinutes > startMinutes the claim reads status = result_declared iff
current ≥ result; the evaluator checks the open window first, so with
start 600, end 720, result 660 and current 690 the status is open even
though current ≥ result — the claimed iff fails. -/
theorem C5_cex_result_iff_fails :
    currentStatusOf c5Game 690 = .openWindow ∧
    ¬(currentStatusOf c5Game 690 = .resultDeclared ↔ 660 ≤ 690) := by decide

/-- C5, amended.  For every active game with no forcedStatus the derived
status is a pure function of minutes since midnight, with the open,
closed and result_declared windows tested in that order.  Same-day
(endMinutes > startMinutes): open iff start ≤ current < end; closed iff
end ≤ current < result; result_declared iff current ≥ result and the
open window does not contain current; else waiting.  Cross-midnight
(endMinutes ≤ startMinutes): open iff current ≥ start or current < end,
and the closed and result_declared windows split on whether
resultMinutes > endMinutes, each window intersected with the complement
of the windows tested before it; else waiting. -/
theorem C5_status_windows :
    (∀ (g : GameDoc) (cur : Nat), g.isActive = true → g.forcedStatus = none →
      g.startM < g.endM →
      ((currentStatusOf g cur = .openWindow ↔ g.startM ≤ cur ∧ cur < g.endM) ∧
       (currentStatusOf g cur = .closed ↔ g.endM ≤ cur ∧ cur < g.resultM) ∧
       (currentStatusOf g cur = .resultDeclared ↔
         g.resultM ≤ cur ∧ ¬(g.startM ≤ cur ∧ cur < g.endM)) ∧
       (currentStatusOf g cur = .waiting ↔
         ¬(g.startM ≤ cur ∧ cur < g.endM) ∧ ¬(g.endM ≤ cur ∧ cur < g.resultM) ∧
         ¬(g.resultM ≤ cur)))) ∧
    (∀ (g : GameDoc) (cur : Nat), g.isActive = true → g.forcedStatus = none →
      g.endM ≤ g.startM →
      ((currentStatusOf g cur = .openWindow ↔ g.startM ≤ cur ∨ cur < g.endM) ∧
       (g.endM < g.resultM →
         ((currentStatusOf g cur = .closed ↔
            ¬(g.startM ≤ cur ∨ cur < g.endM) ∧ g.endM ≤ cur ∧ cur < g.resultM) ∧
          (currentStatusOf g cur = .resultDeclared ↔
            ¬(g.startM ≤ cur ∨ cur < g.endM) ∧ ¬(g.endM ≤ cur ∧ cur < g.resultM) ∧
            g.resultM ≤ cur ∧ cur < g.startM) ∧
          (currentStatusOf g cur = .waiting ↔
            ¬(g.startM ≤ cur ∨ cur < g.endM) ∧ ¬(g.endM ≤ cur ∧ cur < g.resultM) ∧
            ¬(g.resultM ≤ cur ∧ cur < g.startM)))) ∧
       (g.resultM ≤ g.endM →
         ((currentStatusOf g cur = .closed ↔
            ¬(g.startM ≤ cur ∨ cur < g.endM) ∧
            ((g.endM ≤ cur ∧ cur < 1440) ∨ cur < g.resultM)) ∧
          (currentStatusOf g cur = .resultDeclared ↔
            ¬(g.startM ≤ cur ∨ cur < g.endM) ∧
            ¬((g.endM ≤ cur ∧ cur < 1440) ∨ cur < g.resultM) ∧
            g.resultM ≤ cur ∧ cur < g.startM) ∧
          (currentStatusOf g cur = .waiting ↔
            ¬(g.startM ≤ cur ∨ cur < g.endM) ∧
            ¬((g.endM ≤ cur ∧ cur < 1440) ∨ cur < g.resultM) ∧
            ¬(g.resultM ≤ cur ∧ cur < g.startM)))))) := by
  constructor
  · intro g cur ha hf hse
    have hcur : currentStatusOf g cur =
        statusFromMinutes cur g.startM g.endM g.resultM := by
      simp [currentStatusOf, hf, ha]
    rw [hcur]
    unfold statusFromMinutes
    rw [if_pos hse]
    refine ⟨?_, ?_, ?_, ?_⟩ <;>
      · split_ifs <;> simp_all <;> omega
  · intro g cur ha hf hes
    have hcur : currentStatusOf g cur =
        statusFromMinutes cur g.startM g.endM g.resultM := by
      simp [currentStatusOf, hf, ha]
    have hnse : ¬(g.endM > g.startM) := by omega
    rw [hcur]
    unfold statusFromMinutes
    rw [if_neg hnse]
    refine ⟨?_, fun hre => ⟨?_, ?_, ?_⟩, fun her => ⟨?_, ?_, ?_⟩⟩ <;>
      · split_ifs <;> simp_all <;> omega

lemma settleOneGames_won_iff (uwn : Str) (ws : Wallets) (b : GBet) :
    ((settleOneGames uwn ws b).1.status = .won ↔ gamesIsWinner uwn b = true) ∧
    (gamesIsWinner uwn b = true →
      (settleOneGames uwn ws b).1.winningAmount = b.potentialWinning ∧
      (settleOneGames uwn ws b).2.1 = b.potentialWinning) ∧
    (gamesIsWinner uwn b = false →
      (settleOneGames uwn ws b).1.status = .lost ∧
      (settleOneGames uwn ws b).2.1 = 0) := by
  unfold settleOneGames
  by_cases hw : gamesIsWinner uwn b
  · rw [if_pos hw]
    cases walletFind ws b.userId <;> simp [hw]
  · rw [if_neg hw]
    simp_all

lemma settleBetsGames_totalWin (uwn : Str) (ws : Wallets) (bets : List GBet) :
    (settleBetsGames uwn ws bets).2.1 =
      (((settleBetsGames uwn ws bets).1.filter fun b =>
        decide (b.status = .won)).map (·.winningAmount)).sum := by
  induction bets generalizing ws with
  | nil => simp [settleBetsGames]
  | cons b bs ih =>
    simp only [settleBetsGames]
    obtain ⟨hwon, hif, hnot⟩ :=
      settleOneGames_won_iff uwn ws b
    by_cases hw : gamesIsWinner uwn b
    · have h1 := (hif hw).1
      have h2 := (hif hw).2
      have hst : (settleOneGames uwn ws b).1.status = .won := hwon.mpr hw
      rw [List.filter_cons, if_pos (by simp [hst])]
      simp only [List.map_cons, List.sum_cons]
      rw [h1, h2, ih]
    · have hst := (hnot (by simpa using hw)).1
      have h2 := (hnot (by simpa using hw)).2
      rw [List.filter_cons, if_neg (by simp [hst])]
      rw [h2, ih]
      simp

/-- C6: after a games-route settlement run over the fetched bet set, the
stored GameResult satisfies totalBetAmount = the sum of betAmount over
the processed bets, platformCommission = totalBetAmount * commission /
100, netProfit = totalBetAmount - totalWinningAmount -
platformCommission, and totalWinningAmount = the sum of winningAmount
over the bets the run settled as won. -/
theorem C6_gameresult_aggregates :
    ∀ (commission : ℚ) (uwn : Str) (ws : Wallets) (bets : List GBet),
      (runGamesSettlement commission uwn ws bets).result.totalBetAmount =
        (bets.map (·.betAmount)).sum ∧
      (runGamesSettlement commission uwn ws bets).result.platformCommission =
        (runGamesSettlement commission uwn ws bets).result.totalBetAmount *
          (commission / 100) ∧
      (runGamesSettlement commission uwn ws bets).result.netProfit =
        (runGamesSettlement commission uwn ws bets).result.totalBetAmount -
        (runGamesSettlement commission uwn ws bets).result.totalWinningAmount -
        (runGamesSettlement commission uwn ws bets).result.platformCommission ∧
      (runGamesSettlement commission uwn ws bets).result.totalWinningAmount =
        (((runGamesSettlement commission uwn ws bets).bets.filter fun b =>
          decide (b.status = .won)).map (·.winningAmount)).sum := by
  intro commission uwn ws bets
  refine ⟨rfl, rfl, rfl, ?_⟩
  exact settleBetsGames_totalWin uwn ws bets

/-- C7: placeBet rejects every request whose betAmount is not positive or
lies outside the game's min/max range; a request that passes every
earlier check but whose wallet holds depositBalance < betAmount is
rejected with the insufficient-balance error; and every rejection leaves
the wallet, the bet collection and the ledger exactly as they were. -/
theorem C7_placebet_validation :
    (∀ (g : GameDoc) (req : PlaceReq) (st : PlaceState) (cur : Nat),
      (req.betAmount ≤ 0 ∨ req.betAmount < g.minBet ∨ g.maxBet < req.betAmount) →
      ∃ e, placeBet (some g) req st cur = .error e) ∧
    (∀ (g : GameDoc) (req : PlaceReq) (st : PlaceState) (cur : Nat) (w : PWallet),
      req.hasGameId = true → req.betType ≠ [] → req.betNumber ≠ [] →
      0 < req.betAmount → g.isActive = true →
      currentStatusOf g cur = .openWindow →
      g.minBet ≤ req.betAmount → req.betAmount ≤ g.maxBet →
      st.wallet = some w → w.depositBalance < req.betAmount →
      placeBet (some g) req st cur = .error .insufficientBalance) ∧
    (∀ (game : Option GameDoc) (req : PlaceReq) (st : PlaceState) (cur : Nat)
        (e : PlaceErr),
      (runPlaceBet game req st cur).2 = some e →
      (runPlaceBet game req st cur).1 = st) := by
  refine ⟨?_, ?_, ?_⟩
  · intro g req st cur h
    simp only [placeBet]
    split_ifs with h1 h2 h3 h4 h5 h6 <;>
      first
        | exact ⟨_, rfl⟩
        | (exfalso; rcases h with h | h; exacts [h2 h, h5 h])
  · intro g req st cur w h1 h2 h3 h4 h5 h6 h7 h8 h9 h10
    simp only [placeBet]
    rw [if_neg (by
      rw [h1]
      simp only [not_or]
      exact ⟨by decide, h2, h3, ne_of_gt h4⟩)]
    rw [if_neg (not_le.mpr h4)]
    rw [if_neg (by simp [h5])]
    rw [if_neg (by simp [h6])]
    rw [if_neg (not_or.mpr ⟨not_lt.mpr h7, not_lt.mpr h8⟩)]
    rw [h9, Option.getD_some]
    rw [if_pos h10]
  · intro game req st cur e
    unfold runPlaceBet
    cases placeBet game req st cur <;> simp

/-- The jodi game of the C8 counterexample, forced open by an admin. -/
def c8Game : GameDoc :=
  { gameType := .jodi, isActive := true, startM := 600, endM := 720,
    resultM := 750, minBet := 10, maxBet := 1000, commission := 5,
    jodiPayout := 95, harufPayout := 9, crossingPayout := 95,
    declaredResult := none, currentStatus := .waiting,
    forcedStatus := some .openWindow }

/-- A haruf placement request against the jodi game. -/
def c8Req : PlaceReq :=
  { hasGameId := true, betType := ("haruf".data), betNumber := ['5'],
    betAmount := 100 }

/-- The requesting user's pre-existing state: a wallet holding 500. -/
def c8St : PlaceState :=
  { wallet := some { depositBalance := 500 }, bets := [], txns := [] }

lemma c8_placeBet_eval :
    placeBet (some c8Game) c8Req c8St 700 =
      .ok { wallet := some { depositBalance := 400, winningBalance := 0,
                             totalBets := 100, totalWinnings := 0 },
            bets := [{ betType := ("haruf".data), gameType := .jodi,
                       betNumber := ['5'], betAmount := 100,
                       potentialWinning := 900, status := .pending }],
            txns := [{ amount := 100 }] } := by
  simp only [placeBet]
  rw [if_neg (by decide)]
  rw [if_neg (by norm_num [c8Req])]
  rw [if_neg (by decide)]
  rw [if_neg (by decide)]
  rw [if_neg (by norm_num [c8Req, c8Game])]
  have hw : c8St.wallet = some ⟨500, 0, 0, 0⟩ := rfl
  have hbt : betTypeOfStr c8Req.betType = some .haruf := by decide
  rw [hw, Option.getD_some]
  rw [if_neg (by norm_num [c8Req])]
  rw [hbt]
  norm_num [c8St, c8Req, c8Game]

/-- C8, counterexample.  placeBet never compares the submitted betType
with game.type: a haruf bet on a jodi game passes every check, debits
the wallet with the haruf payout and creates the bet record — it is not
rejected. -/
theorem C8_cex_mismatched_type_accepted :
    c8Game.gameType = .jodi ∧
    betTypeOfStr c8Req.betType = some .haruf ∧
    placeBet (some c8Game) c8Req c8St 700 =
      .ok { wallet := some { depositBalance := 400, winningBalance := 0,
                             totalBets := 100, totalWinnings := 0 },
            bets := [{ betType := ("haruf".data), gameType := .jodi,
                       betNumber := ['5'], betAmount := 100,
                       potentialWinning := 900, status := .pending }],
            txns := [{ amount := 100 }] } :=
  ⟨rfl, by decide, c8_placeBet_eval⟩

/-- C8, amended.  placeBet rejects a request for its bet type only when
betType is none of jodi, haruf, crossing (the Invalid bet type throw of
the multiplier switch); it never compares betType with game.type, so a
known bet type differing from the game's type is accepted and the bet
record is created with the submitted betType. -/
theorem C8_bettype_gate :
    (∀ (game : Option GameDoc) (req : PlaceReq) (st : PlaceState) (cur : Nat)
        (st' : PlaceState),
      placeBet game req st cur = .ok st' → betTypeOfStr req.betType ≠ none) ∧
    (∀ (g : GameDoc) (req : PlaceReq) (st : PlaceState) (cur : Nat) (w : PWallet),
      req.hasGameId = true → req.betType ≠ [] → req.betNumber ≠ [] →
      0 < req.betAmount → g.isActive = true →
      currentStatusOf g cur = .openWindow →
      g.minBet ≤ req.betAmount → req.betAmount ≤ g.maxBet →
      st.wallet = some w → ¬(w.depositBalance < req.betAmount) →
      betTypeOfStr req.betType = none →
      placeBet (some g) req st cur = .error .invalidBetType) ∧
    (runPlaceBet (some c8Game) c8Req c8St 700).2 = none := by
  refine ⟨?_, ?_, ?_⟩
  · intro game req st cur st' h hbt
    cases game with
    | none =>
      simp only [placeBet] at h
      split_ifs at h
    | some g =>
      simp only [placeBet] at h
      rw [hbt] at h
      split_ifs at h
  · intro g req st cur w h1 h2 h3 h4 h5 h6 h7 h8 h9 h10 hbt
    simp only [placeBet]
    rw [if_neg (by
      rw [h1]
      simp only [not_or]
      exact ⟨by decide, h2, h3, ne_of_gt h4⟩)]
    rw [if_neg (not_le.mpr h4)]
    rw [if_neg (by simp [h5])]
    rw [if_neg (by simp [h6])]
    rw [if_neg (not_or.mpr ⟨not_lt.mpr h7, not_lt.mpr h8⟩)]
    rw [h9, Option.getD_some]
    rw [if_neg h10, hbt]
  · unfold runPlaceBet
    rw [c8_placeBet_eval]

/-- C9: in the games-route declareResult settlement, a winning bet whose
user has no Wallet document is still marked won with winningAmount and
actualPayout set to its frozen potentialWinning, its amount still enters
totalWinningAmount, but no wallet is credited and no win transaction is
created. -/
theorem C9_winner_without_wallet :
    ∀ (commission : ℚ) (uwn : Str) (ws : Wallets) (b : GBet),
      walletFind ws b.userId = none → gamesIsWinner uwn b = true →
      settleOneGames uwn ws b =
        ({ b with isWinner := true, winningAmount := b.potentialWinning,
                  actualPayout := b.potentialWinning, status := .won },
         b.potentialWinning, ws, []) ∧
      (runGamesSettlement commission uwn ws [b]).result.totalWinningAmount =
        b.potentialWinning ∧
      (runGamesSettlement commission uwn ws [b]).wallets = ws ∧
      (runGamesSettlement commission uwn ws [b]).txns = [] := by
  intro commission uwn ws b hnw hw
  have hone : settleOneGames uwn ws b =
      ({ b with isWinner := true, winningAmount := b.potentialWinning,
                actualPayout := b.potentialWinning, status := .won },
       b.potentialWinning, ws, []) := by
    unfold settleOneGames
    rw [if_pos hw, hnw]
  refine ⟨hone, ?_, ?_, ?_⟩ <;>
    simp [runGamesSettlement, settleBetsGames, hone]

/-- C9 witness: the theorem applied to a concrete winning jodi bet whose
user has no wallet entry. -/
theorem C9_wit_winner_without_wallet :
    settleOneGames ['6', '2']
        ([] : Wallets)
        { userId := 7, betType := .jodi, betNumber := ['6', '2'],
          potentialWinning := 950 } =
      ({ userId := 7, betType := .jodi, betNumber := ['6', '2'],
         betAmount := 0, potentialWinning := 950, harufPosition := [],
         status := .won, isWinner := true, winningAmount := 950,
         actualPayout := 950, hasWinningTxn := false },
       950, [], []) ∧
    (runGamesSettlement 5 ['6', '2'] []
        [{ userId := 7, betType := .jodi, betNumber := ['6', '2'],
           potentialWinning := 950 }]).result.totalWinningAmount = 950 ∧
    (runGamesSettlement 5 ['6', '2'] []
        [{ userId := 7, betType := .jodi, betNumber := ['6', '2'],
           potentialWinning := 950 }]).wallets = [] ∧
    (runGamesSettlement 5 ['6', '2'] []
        [{ userId := 7, betType := .jodi, betNumber := ['6', '2'],
           potentialWinning := 950 }]).txns = [] :=
  C9_winner_without_wallet 5 ['6', '2'] []
    { userId := 7, betType := .jodi, betNumber := ['6', '2'],
      potentialWinning := 950 } rfl (by decide)

lemma digitChar_lt_digitChar {a b : Nat} (ha : a ≤ 9) (hb : b ≤ 9) :
    digitChar a < digitChar b ↔ a < b := by
  interval_cases a <;> interval_cases b <;> decide

lemma digitChar_inj {a b : Nat} (h : a = b) :
    digitChar a = digitChar b := by rw [h]

lemma jsStrLt_pad2_append {a b : Nat} (ha : a < 100) (hb : b < 100)
    (s t : Str) :
    jsStrLt (pad2 a ++ s) (pad2 b ++ t) =
      (if a < b then true else if b < a then false else jsStrLt s t) := by
  have h1 : a / 10 ≤ 9 := by omega
  have h2 : a % 10 ≤ 9 := by omega
  have h3 : b / 10 ≤ 9 := by omega
  have h4 : b % 10 ≤ 9 := by omega
  simp only [pad2, List.cons_append, List.nil_append, jsStrLt]
  rcases Nat.lt_trichotomy (a / 10) (b / 10) with h | h | h
  · rw [if_pos ((digitChar_lt_digitChar h1 h3).mpr h),
      if_pos (show a < b by omega)]
  · rw [digitChar_inj h]
    rw [if_neg (lt_irrefl _), if_neg (lt_irrefl _)]
    rcases Nat.lt_trichotomy (a % 10) (b % 10) with h' | h' | h'
    · rw [if_pos ((digitChar_lt_digitChar h2 h4).mpr h'),
        if_pos (show a < b by omega)]
    · rw [digitChar_inj h']
      rw [if_neg (lt_irrefl _), if_neg (lt_irrefl _)]
      rw [if_neg (show ¬(a < b) by omega), if_neg (show ¬(b < a) by omega)]
      rfl
    · rw [if_neg ((digitChar_lt_digitChar h2 h4).not.mpr (by omega)),
        if_pos ((digitChar_lt_digitChar h4 h2).mpr h'),
        if_neg (show ¬(a < b) by omega), if_pos (show b < a by omega)]
  · rw [if_neg ((digitChar_lt_digitChar h1 h3).not.mpr (by omega)),
      if_pos ((digitChar_lt_digitChar h3 h1).mpr h),
      if_neg (show ¬(a < b) by omega), if_pos (show b < a by omega)]

lemma jsStrLt_renderHM {h1 m1 h2 m2 : Nat}
    (hh1 : h1 < 24) (hm1 : m1 < 60) (hh2 : h2 < 24) (hm2 : m2 < 60) :
    jsStrLt (renderHM h1 m1) (renderHM h2 m2) =
      decide (toMinutes h1 m1 < toMinutes h2 m2) := by
  unfold renderHM
  rw [jsStrLt_pad2_append (by omega) (by omega)]
  have hcolon : jsStrLt (':' :: pad2 m1) (':' :: pad2 m2) =
      jsStrLt (pad2 m1) (pad2 m2) := by
    simp only [jsStrLt]
    rw [if_neg (lt_irrefl _), if_neg (lt_irrefl _ )]
  rw [hcolon]
  have hm : jsStrLt (pad2 m1) (pad2 m2) =
      (if m1 < m2 then true else if m2 < m1 then false else false) := by
    have := jsStrLt_pad2_append (show m1 < 100 by omega)
      (show m2 < 100 by omega) [] []
    simpa [jsStrLt] using this
  rw [hm]
  rcases Nat.lt_trichotomy h1 h2 with h | h | h
  · rw [if_pos h]
    simp only [toMinutes]
    rw [eq_comm, decide_eq_true_eq]
    omega
  · subst h
    rw [if_neg (lt_irrefl _), if_neg (lt_irrefl _)]
    rcases Nat.lt_trichotomy m1 m2 with h' | h' | h'
    · rw [if_pos h']
      simp only [toMinutes]
      rw [eq_comm, decide_eq_true_eq]
      omega
    · subst h'
      rw [if_neg (lt_irrefl _), if_neg (lt_irrefl _)]
      simp only [toMinutes]
      rw [eq_comm, decide_eq_false_iff_not]
      omega
    · rw [if_neg (show ¬(m1 < m2) by omega), if_pos h']
      simp only [toMinutes]
      rw [eq_comm, decide_eq_false_iff_not]
      omega
  · rw [if_neg (show ¬(h1 < h2) by omega), if_pos h]
    simp only [toMinutes]
    rw [eq_comm, decide_eq_false_iff_not]
    omega

/-- C10: for zero-padded HH:mm times with startTime lexicographically
before endTime, the getGameById status computed by direct string
comparison equals, at every time of day, the status computed by the
minutes-since-midnight evaluator of getAllGames and placeBet (both
handlers first give precedence to an admin forced status and inactivity
in the same way, so the two raw evaluators carry the whole
difference). -/
theorem C10_string_status_matches_minutes :
    ∀ ch cm sh sm eh em rh rm : Nat,
      ch < 24 → cm < 60 → sh < 24 → sm < 60 → eh < 24 → em < 60 →
      rh < 24 → rm < 60 →
      jsStrLt (renderHM sh sm) (renderHM eh em) = true →
      statusFromStrings (renderHM ch cm) (renderHM sh sm) (renderHM eh em)
          (renderHM rh rm) =
        statusFromMinutes (toMinutes ch cm) (toMinutes sh sm)
          (toMinutes eh em) (toMinutes rh rm) := by
  intro ch cm sh sm eh em rh rm hch hcm hsh hsm heh hem hrh hrm hlt
  rw [jsStrLt_renderHM hsh hsm heh hem, decide_eq_true_eq] at hlt
  unfold statusFromStrings statusFromMinutes
  rw [jsStrLt_renderHM hch hcm hsh hsm, jsStrLt_renderHM hch hcm heh hem,
    jsStrLt_renderHM hch hcm hrh hrm]
  rw [if_pos hlt]
  simp only [Bool.and_eq_true, Bool.not_eq_true', decide_eq_true_eq,
    decide_eq_false_iff_not]
  split_ifs <;> first | rfl | omega

/-- C10 witness: the equivalence applied at 13:30 for a 10:00-12:00 game
with result time 12:30. -/
theorem C10_wit_string_status :
    statusFromStrings (renderHM 13 30) (renderHM 10 0) (renderHM 12 0)
        (renderHM 12 30) =
      statusFromMinutes (toMinutes 13 30) (toMinutes 10 0) (toMinutes 12 0)
        (toMinutes 12 30) :=
  C10_string_status_matches_minutes 13 30 10 0 12 0 12 30
    (by decide) (by decide) (by decide) (by decide) (by decide) (by decide)
    (by decide) (by decide) (by decide)

example : statusFromMinutes 690 600 720 750 = .openWindow := by decide
example : statusFromMinutes 730 600 720 750 = .closed := by decide
example : statusFromMinutes 800 600 720 750 = .resultDeclared := by decide
example : statusFromMinutes 100 600 720 750 = .waiting := by decide
example : statusFromMinutes 1410 1200 180 210 = .openWindow := by decide
example : statusFromMinutes 195 1200 180 210 = .closed := by decide
example : statusFromMinutes 225 1200 180 210 = .resultDeclared := by decide
example : statusFromMinutes 1140 1200 180 210 = .resultDeclared := by decide
example : jsStrLt ("09:30".data) ("10:00".data) = true := by decide
example : jsIncludes ("14".data) ("4".data) = true := by decide
example : jsIncludes ("14".data) ("41".data) = false := by decide
example : charAt ("145".data) 2 = ['5'] := by decide
example : charAt ("145".data) 7 = [] := by decide

end SatyaMatka
